import Mathlib

/-!
Verification of the context-selection pipeline of the `personal-chatbot`
repository: deterministic chunking, re-ranking with gating, the fallback
policy of the context selector, and the vector-store adapter.

Python floats carrying relevance and vector-similarity scores are modelled
as rationals (`ℚ`): every claim under study is about comparisons and a
fixed linear blend, none about rounding. Python dictionaries with string
keys are modelled as association lists. External capabilities outside the
repository (the SHA-1 implementation of `hashlib`, the Chroma collection)
are abstract parameters or are modelled from the spec where noted.
-/

namespace PersonalChatbot

/-- Scores (Python `float`) are modelled as rationals. -/
abbrev Score := ℚ

/-! ### `src/business/rag/re_ranker/interface.py` -/

/-- `RetrievedChunk`: chunk returned from the VectorDB before re-ranking.
`metadata : Dict[str, Any]` is modelled as an association list. -/
structure RetrievedChunk where
  chunk_id : String
  text : String
  metadata : List (String × String)
  vector_score : Score
deriving DecidableEq

/-- `ReRankedChunk`: chunk after re-ranking; inherits all fields of
`RetrievedChunk` and adds `rerank_score`. -/
structure ReRankedChunk extends RetrievedChunk where
  rerank_score : Score
deriving DecidableEq

/-- `ReRankScorer.score`: the abstract scoring capability
(`score(query, chunks) -> List[ReRankedChunk]`), modelled as a function. -/
abbrev ReRankScorer := String → List RetrievedChunk → List ReRankedChunk

/-! ### `src/business/rag/re_ranker/config.py` -/

/-- `ReRankerConfig` dataclass (frozen). -/
structure ReRankerConfig where
  model_name : String
  device : String
  top_k_input : Nat
  top_n_output : Nat
  min_score : Score
  blend_with_vector_score : Bool
  blend_alpha : Score
  batch_size : Nat
deriving DecidableEq

/-- The dataclass field defaults of `ReRankerConfig`. -/
def ReRankerConfig.defaults : ReRankerConfig :=
  ⟨"BAAI/bge-reranker-base", "cpu", 30, 8, mkRat 15 100, false, mkRat 1 2, 8⟩

/-! ### `src/business/rag/re_ranker/re_ranker.py` -/

/-- The `ReRanker` class: a scorer plus a configuration. -/
structure ReRanker where
  scorer : ReRankScorer
  config : ReRankerConfig

/-- `ReRanker._final_score`: the raw relevance score, or the blend
`alpha * rerank_score + (1 - alpha) * vector_score` when blending is on. -/
def final_score (config : ReRankerConfig) (chunk : ReRankedChunk) : Score :=
  if !config.blend_with_vector_score then chunk.rerank_score
  else config.blend_alpha * chunk.rerank_score
    + (1 - config.blend_alpha) * chunk.vector_score

/-- `ReRanker._apply_gating`: drop chunks whose `rerank_score` is below
`config.min_score`. -/
def apply_gating (config : ReRankerConfig) (chunks : List ReRankedChunk) :
    List ReRankedChunk :=
  chunks.filter (fun chunk => decide (config.min_score ≤ chunk.rerank_score))

/-- Python `sorted(l, key=f, reverse=True)` is the unique stable descending
sort by the key; `List.insertionSort` with the relation
`key of earlier ≥ key of later` computes exactly that list. -/
def pySortByKeyDesc (key : ReRankedChunk → Score) (l : List ReRankedChunk) :
    List ReRankedChunk :=
  List.insertionSort (fun a b => key b ≤ key a) l

/-- `ReRanker.re_rank`: cap to `top_k_input`, score, gate, sort by
`_final_score` descending, truncate to `top_n_output`. -/
def ReRanker.re_rank (r : ReRanker) (query : String)
    (chunks : List RetrievedChunk) : List ReRankedChunk :=
  if chunks.isEmpty then []
  else
    let candidates := chunks.take r.config.top_k_input
    let scored_chunks := r.scorer query candidates
    let gated_chunks := apply_gating r.config scored_chunks
    if gated_chunks.isEmpty then []
    else
      let ranked_chunks := pySortByKeyDesc (final_score r.config) gated_chunks
      ranked_chunks.take r.config.top_n_output

/-! ### `src/business/rag/re_ranker/orchestrator.py` -/

/-- The Python `select_context` returns re-ranked chunks on the success
path and raw retrieved chunks on the fallback path; the sum records which
kind of object populates the returned list. -/
abbrev SelectedChunk := Sum ReRankedChunk RetrievedChunk

/-- `select_context(query, retrieved_chunks, reranker, policy)`:
run the re-ranker; non-empty result returns those chunks with confidence
high; otherwise `fail_closed` returns `([], none)` and every other policy
string falls back to the first `top_n_output` raw retrieved chunks with
confidence low. -/
def select_context (query : String) (retrieved_chunks : List RetrievedChunk)
    (reranker : ReRanker) (policy : String) : List SelectedChunk × String :=
  let reranked_chunks := reranker.re_rank query retrieved_chunks
  if !reranked_chunks.isEmpty then (reranked_chunks.map Sum.inl, "high")
  else if policy == "fail_closed" then ([], "none")
  else
    ((retrieved_chunks.take reranker.config.top_n_output).map Sum.inr, "low")

/-! ### `src/business/rag/chunk.py` -/

/-- The `Chunk` dataclass. Its Python `metadata` dict is
`{**source_metadata, "chunk_start": start, "chunk_end": end,
"chunk_strategy": strategy_name}`; the three added keys are modelled as
fields next to the inherited association list. -/
structure Chunk where
  chunk_id : String
  text : String
  source_metadata : List (String × String)
  chunk_start : Int
  chunk_end : Int
  chunk_strategy : String
deriving DecidableEq

/-- The `Chunker` class fields; the constructor asserts
`overlap < chunk_size` (see `Chunker.make`). -/
structure Chunker where
  chunk_size : Nat
  overlap : Nat
  strategy_name : String
deriving DecidableEq

/-- `Chunker.__init__`: `assert overlap < chunk_size` makes construction
fail on a bad configuration. -/
def Chunker.make (chunk_size overlap : Nat) (strategy_name : String) :
    Option Chunker :=
  if overlap < chunk_size then some ⟨chunk_size, overlap, strategy_name⟩
  else none

/-- Python `d.get(k, default)` on a string-keyed dict. -/
def dictGet (d : List (String × String)) (k : String) (dflt : String) :
    String :=
  match d.find? (fun p => p.1 == k) with
  | some p => p.2
  | none => dflt

/-- Python slicing `s[i:j]` on a list of characters: negative indices are
taken from the end, then both bounds are clamped to `[0, length]`. -/
def pySlice (s : List Char) (i j : Int) : List Char :=
  let n : Int := s.length
  let lo : Int := if i < 0 then max (n + i) 0 else min i n
  let hi : Int := if j < 0 then max (n + j) 0 else min j n
  (s.take hi.toNat).drop lo.toNat

/-- Python `str.strip()`: drop whitespace from both ends. -/
def pyStrip (s : List Char) : List Char :=
  ((s.dropWhile Char.isWhitespace).reverse.dropWhile Char.isWhitespace).reverse

/-- `Chunker._build_chunk_id`: the identifier is the hex digest of SHA-1
applied to `source_metadata.get("source_id", "") + str(start) +
chunk_text[:100]`. The SHA-1 implementation lives in Python `hashlib`,
outside the repository, so it is an abstract parameter `sha1hex`; the
`[:100]` slice is by code points, as in Python. -/
def build_chunk_id (sha1hex : String → String) (chunk_text : String)
    (start : Int) (source_metadata : List (String × String)) : String :=
  sha1hex (dictGet source_metadata "source_id" ""
    ++ toString start ++ String.mk (chunk_text.toList.take 100))

/-- One appended chunk of `Chunker.split`, built when the stripped window
text is nonempty. -/
def mkSplitChunk (sha1hex : String → String) (c : Chunker)
    (stripped : String) (start finish : Int)
    (source_metadata : List (String × String)) : Chunk :=
  ⟨build_chunk_id sha1hex stripped start source_metadata, stripped,
    source_metadata, start, finish, c.strategy_name⟩

/-- The `while start < text_length` loop of `Chunker.split`, with fuel:
`none` means the fuel ran out before the loop exited. Each iteration takes
the window `text[start : min(start + chunk_size, text_length)]`, strips
it, appends a chunk when the stripped text is nonempty, and sets
`start = end - overlap`. -/
def splitLoop (sha1hex : String → String) (c : Chunker) (text : List Char)
    (source_metadata : List (String × String)) :
    Nat → Int → List Chunk → Option (List Chunk)
  | 0, _, _ => none
  | fuel + 1, start, acc =>
    if start < (text.length : Int) then
      let finish : Int := min (start + (c.chunk_size : Int)) text.length
      let stripped := String.mk (pyStrip (pySlice text start finish))
      let acc' :=
        if stripped ≠ "" then
          acc ++ [mkSplitChunk sha1hex c stripped start finish source_metadata]
        else acc
      splitLoop sha1hex c text source_metadata fuel
        (finish - (c.overlap : Int)) acc'
    else some acc

/-- `Chunker.split(text, source_metadata)`: empty or whitespace-only text
returns `[]`; otherwise the sliding-window loop runs from `start = 0`. -/
def Chunker.split (sha1hex : String → String) (c : Chunker) (fuel : Nat)
    (text : String) (source_metadata : List (String × String)) :
    Option (List Chunk) :=
  if text = "" ∨ pyStrip text.toList = [] then some []
  else splitLoop sha1hex c text.toList source_metadata fuel 0 []

/-! ### `src/business/rag/vector_store.py` -/

/-- One stored entry of the index collection: id, embedding, metadata,
document text. -/
structure VectorStoreEntry where
  id : String
  embedding : List Score
  metadata : List (String × String)
  document : String
deriving DecidableEq

/-- The parallel argument arrays of `upsert`, zipped into entries as they
are handed to the collection. -/
def buildEntries (ids : List String) (embeddings : List (List Score))
    (metadatas : List (List (String × String))) (documents : List String) :
    List VectorStoreEntry :=
  (ids.zip (embeddings.zip (metadatas.zip documents))).map
    (fun p => ⟨p.1, p.2.1, p.2.2.1, p.2.2.2⟩)

/-- Modelled from the spec: the Chroma collection (external to the
repository) upserts entries keyed by id — an existing id is overwritten in
place, a new id is appended. -/
def collection_upsert (coll : List VectorStoreEntry)
    (new : List VectorStoreEntry) : List VectorStoreEntry :=
  new.foldl
    (fun acc e =>
      if acc.any (fun x => x.id == e.id) then
        acc.map (fun x => if x.id == e.id then e else x)
      else acc ++ [e])
    coll

/-- `VectorStore.upsert(ids, embeddings, metadatas, documents)`: raises
`ValueError` when `len(ids) != len(embeddings)`, otherwise hands the
arrays to the collection. The result pairs the outcome with the
collection state after the call. -/
def VectorStore.upsert (coll : List VectorStoreEntry) (ids : List String)
    (embeddings : List (List Score))
    (metadatas : List (List (String × String))) (documents : List String) :
    Except String Unit × List VectorStoreEntry :=
  if ids.length ≠ embeddings.length then
    (Except.error "ids and embeddings length mismatch", coll)
  else
    (Except.ok (),
      collection_upsert coll (buildEntries ids embeddings metadatas documents))

/-! ### `src/business/rag/retrieval.py` -/

/-- The instance attributes assigned by `RAGPipeline.__init__`
(`self.embedder`, `self.vector_store`, `self.reranker`,
`self.prompt_builder`, `self.llm`). -/
def rag_pipeline_init_attrs : List String :=
  ["embedder", "vector_store", "reranker", "prompt_builder", "llm"]

/-- The attributes `RAGPipeline.answer` reads off `self` in its body:
`self.reranker_config` (twice), `self.reranker`, `self.embedder` (via
`self._retrieve`), `self.llm`. -/
def answer_self_attr_reads : List String :=
  ["reranker_config", "reranker", "embedder", "llm"]

/-- The methods defined on the `ReRanker` class. -/
def reranker_class_methods : List String :=
  ["re_rank", "_apply_gating", "_final_score"]

/-- The method `RAGPipeline.answer` invokes on `self.reranker`. -/
def answer_reranker_method_call : String := "rerank"

/-- The fields of the `ReRankerConfig` dataclass, as attribute names. -/
def reranker_config_fields : List String :=
  ["model_name", "device", "top_k_input", "top_n_output", "min_score",
    "blend_with_vector_score", "blend_alpha", "batch_size"]

/-- The attributes `RAGPipeline.answer` reads off `self.reranker_config`. -/
def answer_config_attr_reads : List String :=
  ["initial_top_k", "max_context_tokens"]

/-- The number of values `RAGPipeline.answer` returns
(`return answer, selected_context`). -/
def answer_return_arity : Nat := 2

/-- The number of values the caller
`chatbot.handle_freeform_query` unpacks from `rag.answer(...)`
(`answer, confidence, _ = rag.answer(request.message)`). -/
def chatbot_answer_unpack_arity : Nat := 3

/-! ## Helper lemmas -/

/-- `re_rank` unfolded into its branch structure. -/
lemma re_rank_eq (r : ReRanker) (q : String) (cs : List RetrievedChunk) :
    r.re_rank q cs =
      if cs.isEmpty then []
      else if (apply_gating r.config
          (r.scorer q (cs.take r.config.top_k_input))).isEmpty then []
      else
        (pySortByKeyDesc (final_score r.config)
          (apply_gating r.config
            (r.scorer q (cs.take r.config.top_k_input)))).take
          r.config.top_n_output := rfl

lemma sorted_pySortByKeyDesc (key : ReRankedChunk → Score)
    (l : List ReRankedChunk) :
    List.Sorted (fun a b => key b ≤ key a) (pySortByKeyDesc key l) := by
  letI : IsTotal ReRankedChunk (fun a b => key b ≤ key a) :=
    ⟨fun a b => le_total (key b) (key a)⟩
  letI : IsTrans ReRankedChunk (fun a b => key b ≤ key a) :=
    ⟨fun _ _ _ hab hbc => le_trans hbc hab⟩
  exact List.sorted_insertionSort _ _

lemma perm_pySortByKeyDesc (key : ReRankedChunk → Score)
    (l : List ReRankedChunk) : List.Perm (pySortByKeyDesc key l) l :=
  List.perm_insertionSort _ _

lemma mem_apply_gating {config : ReRankerConfig} {l : List ReRankedChunk}
    {c : ReRankedChunk} (h : c ∈ apply_gating config l) :
    c ∈ l ∧ config.min_score ≤ c.rerank_score := by
  have := List.mem_filter.mp h
  exact ⟨this.1, by simpa using this.2⟩

/-! ## C1 -/

/-- C1: the selector policy contract of `select_context`: a non-empty
re-ranker result is returned as-is with confidence high, and that is the
only way to get high; an empty result with policy fail_closed returns
`([], none)`; an empty result with policy fail_open or hybrid returns the
first `top_n_output` raw retrieved chunks, in vector order, with
confidence low, so the fallback never exceeds the configured output
size. -/
theorem select_context_policy_contract (q : String)
    (cs : List RetrievedChunk) (r : ReRanker) (p : String) :
    (r.re_rank q cs ≠ [] →
      select_context q cs r p = ((r.re_rank q cs).map Sum.inl, "high"))
    ∧ ((select_context q cs r p).2 = "high" →
      r.re_rank q cs ≠ []
        ∧ (select_context q cs r p).1 = (r.re_rank q cs).map Sum.inl)
    ∧ (r.re_rank q cs = [] → p = "fail_closed" →
      select_context q cs r p = ([], "none"))
    ∧ (r.re_rank q cs = [] → (p = "fail_open" ∨ p = "hybrid") →
      select_context q cs r p
          = ((cs.take r.config.top_n_output).map Sum.inr, "low")
        ∧ (select_context q cs r p).1.length ≤ r.config.top_n_output) :=
  by
  unfold select_context
  by_cases h : r.re_rank q cs = []
  · rw [h]
    by_cases hp : p = "fail_closed"
    · subst hp
      refine ⟨fun hne => absurd rfl hne, by simp, fun _ _ => by simp, ?_⟩
      rintro - (h1 | h1) <;> simp at h1
    · have hpb : (p == "fail_closed") = false := by
        simpa using hp
      refine ⟨fun hne => absurd rfl hne, by simp [hpb], fun _ he => absurd he hp, ?_⟩
      refine fun _ _ => ⟨by simp [hpb], ?_⟩
      simp only [List.isEmpty_nil, Bool.not_true, if_false, hpb, if_true]
      simp [List.length_take]
  · have hb : (r.re_rank q cs).isEmpty = false := by
      simpa [List.isEmpty_iff] using h
    refine ⟨fun _ => by simp [hb], fun _ => ⟨h, by simp [hb]⟩,
      fun he => absurd he h, fun he => absurd he h⟩

/-- C1 witness: with an empty-returning scorer and five chunks, the
fail_closed branch of the contract produces `([], none)` at a concrete
input. -/
theorem select_context_policy_contract_witness :
    select_context "t"
        [⟨"0", "t0", [], 1⟩, ⟨"1", "t1", [], 1⟩, ⟨"2", "t2", [], 1⟩,
          ⟨"3", "t3", [], 1⟩, ⟨"4", "t4", [], 1⟩]
        ⟨fun _ _ => [], ReRankerConfig.defaults⟩ "fail_closed"
      = ([], "none") :=
  ((select_context_policy_contract "t"
      [⟨"0", "t0", [], 1⟩, ⟨"1", "t1", [], 1⟩, ⟨"2", "t2", [], 1⟩,
        ⟨"3", "t3", [], 1⟩, ⟨"4", "t4", [], 1⟩]
      ⟨fun _ _ => [], ReRankerConfig.defaults⟩ "fail_closed").2.2.1)
    (by decide) rfl

/-! ## C10 -/

/-- C10: `select_context` never validates the policy string: for every
policy other than the exact string fail_closed, an empty re-ranker result
falls through to the fail-open fallback — the first `top_n_output` raw
candidates with confidence low. -/
theorem select_context_unknown_policy (q : String)
    (cs : List RetrievedChunk) (r : ReRanker) (p : String)
    (h₁ : r.re_rank q cs = []) (h₂ : p ≠ "fail_closed") :
    select_context q cs r p
      = ((cs.take r.config.top_n_output).map Sum.inr, "low") := by
  have hpb : (p == "fail_closed") = false := by simpa using h₂
  unfold select_context
  rw [h₁]
  simp [hpb]

/-- C10 witness: the misspelled policy string fail_opne takes the
fail-open fallback at a concrete input. -/
theorem select_context_unknown_policy_witness :
    select_context "t" [⟨"0", "t0", [], 1⟩]
        ⟨fun _ _ => [], ReRankerConfig.defaults⟩ "fail_opne"
      = ([Sum.inr ⟨"0", "t0", [], 1⟩], "low") :=
  select_context_unknown_policy "t" [⟨"0", "t0", [], 1⟩]
    ⟨fun _ _ => [], ReRankerConfig.defaults⟩ "fail_opne"
    (by decide) (by decide)

/-! ## Witness fixtures -/

/-- A retrieved chunk used by concrete witnesses. -/
def wChunk (i : Nat) : RetrievedChunk := ⟨toString i, "text", [], 1⟩

/-- Five retrieved chunks, as in the repository tests. -/
def wChunks5 : List RetrievedChunk :=
  [wChunk 0, wChunk 1, wChunk 2, wChunk 3, wChunk 4]

/-- The deterministic mock scorer of the tests: chunk `i` gets
`rerank_score = i * 0.1`. -/
def wScorer : ReRankScorer := fun _ cs =>
  cs.enum.map (fun p => ⟨p.2, mkRat p.1 10⟩)

/-- A scorer whose scores all fall below the default threshold. -/
def wLowScorer : ReRankScorer := fun _ cs => cs.map (fun c => ⟨c, 0⟩)

/-- Test configuration `top_n_output = 3`, `min_score = 0`. -/
def wConfig : ReRankerConfig := ⟨"m", "cpu", 30, 3, 0, false, mkRat 1 2, 8⟩

/-- Re-ranker built from the mock scorer and the test configuration. -/
def wReRanker : ReRanker := ⟨wScorer, wConfig⟩

/-! ## C2 -/

/-- C2: for every scorer, query and candidate list, the output of
`re_rank` is sorted by final score in descending order, has length at
most `top_n_output`, and every output chunk has
`rerank_score ≥ min_score`. -/
theorem re_rank_sorted_truncated_gated (r : ReRanker) (q : String)
    (cs : List RetrievedChunk) :
    List.Sorted
        (fun a b => final_score r.config b ≤ final_score r.config a)
        (r.re_rank q cs)
    ∧ (r.re_rank q cs).length ≤ r.config.top_n_output
    ∧ ∀ c ∈ r.re_rank q cs, r.config.min_score ≤ c.rerank_score := by
  rw [re_rank_eq]
  split_ifs with h1 h2
  · simp
  · simp
  · refine ⟨?_, ?_, ?_⟩
    · exact List.Pairwise.sublist (List.take_sublist _ _)
        (sorted_pySortByKeyDesc _ _)
    · rw [List.length_take]
      exact min_le_left _ _
    · intro c hc
      have hc2 : c ∈ pySortByKeyDesc (final_score r.config)
          (apply_gating r.config
            (r.scorer q (cs.take r.config.top_k_input))) :=
        (List.take_sublist _ _).subset hc
      have hc3 := (perm_pySortByKeyDesc _ _).mem_iff.mp hc2
      exact (mem_apply_gating hc3).2

/-- C2 witness: at the mock scorer and the test configuration, the chunk
with the highest score is in the output, and the theorem yields its
gating bound. -/
theorem re_rank_sorted_truncated_gated_witness :
    wConfig.min_score
      ≤ (ReRankedChunk.mk (wChunk 4) (mkRat 4 10)).rerank_score :=
  (re_rank_sorted_truncated_gated wReRanker "q" wChunks5).2.2
    ⟨wChunk 4, mkRat 4 10⟩ (by decide)

/-! ## C3 -/

/-- C3: gating completeness — if every chunk produced by the scorer on
the capped candidate list scores strictly below `min_score`, `re_rank`
returns the empty list. -/
theorem re_rank_gating_complete (r : ReRanker) (q : String)
    (cs : List RetrievedChunk)
    (h : ∀ c ∈ r.scorer q (cs.take r.config.top_k_input),
      c.rerank_score < r.config.min_score) :
    r.re_rank q cs = [] := by
  rw [re_rank_eq]
  split_ifs with h1 h2
  · rfl
  · rfl
  · exfalso
    apply h2
    have hnil : apply_gating r.config
        (r.scorer q (cs.take r.config.top_k_input)) = [] := by
      refine List.filter_eq_nil_iff.mpr (fun c hc => ?_)
      simpa using not_le.mpr (h c hc)
    simp [hnil]

/-- C3 witness: a scorer assigning score `0` everywhere with the default
threshold `0.15` makes `re_rank` return `[]` on five chunks. -/
theorem re_rank_gating_complete_witness :
    (ReRanker.mk wLowScorer ReRankerConfig.defaults).re_rank "q" wChunks5
      = [] :=
  re_rank_gating_complete ⟨wLowScorer, ReRankerConfig.defaults⟩ "q" wChunks5
    (by decide)

/-! ## C8 -/

lemma subperm_map {α β : Type} (f : α → β) {l₁ l₂ : List α}
    (h : List.Subperm l₁ l₂) : List.Subperm (l₁.map f) (l₂.map f) := by
  obtain ⟨l, hperm, hsub⟩ := h
  exact ⟨l.map f, hperm.map f, hsub.map f⟩

/-- C8: no fabrication — whenever the scorer returns one scored chunk per
input chunk with the retrieved fields preserved (the scorer interface
contract, stated as: forgetting `rerank_score` gives back the capped
candidate list), the multiset of output chunks of `re_rank`, with
`rerank_score` forgotten, is contained in the first `top_k_input`
candidates; in particular every output chunk is one of those candidates
unchanged, and none is duplicated beyond its input multiplicity. -/
theorem re_rank_no_fabrication (r : ReRanker) (q : String)
    (cs : List RetrievedChunk)
    (hs : (r.scorer q (cs.take r.config.top_k_input)).map
        ReRankedChunk.toRetrievedChunk = cs.take r.config.top_k_input) :
    List.Subperm
        ((r.re_rank q cs).map ReRankedChunk.toRetrievedChunk)
        (cs.take r.config.top_k_input)
    ∧ ∀ c ∈ r.re_rank q cs,
        c.toRetrievedChunk ∈ cs.take r.config.top_k_input := by
  have main : List.Subperm
      ((r.re_rank q cs).map ReRankedChunk.toRetrievedChunk)
      (cs.take r.config.top_k_input) := by
    rw [re_rank_eq]
    split_ifs with h1 h2
    · simp only [List.map_nil]
      exact List.nil_subperm
    · simp only [List.map_nil]
      exact List.nil_subperm
    · have hsub : List.Subperm
          ((pySortByKeyDesc (final_score r.config)
            (apply_gating r.config
              (r.scorer q (cs.take r.config.top_k_input)))).take
            r.config.top_n_output)
          (r.scorer q (cs.take r.config.top_k_input)) := by
        refine ((List.take_sublist _ _).subperm.trans
          (perm_pySortByKeyDesc _ _).subperm).trans ?_
        exact (List.filter_sublist _).subperm
      have hmap := subperm_map ReRankedChunk.toRetrievedChunk hsub
      rwa [hs] at hmap
  refine ⟨main, fun c hc => main.subset ?_⟩
  exact List.mem_map_of_mem _ hc

/-- C8 witness: with the mock scorer (which satisfies the interface
contract) the containment holds at a concrete input. -/
theorem re_rank_no_fabrication_witness :
    List.Subperm
      ((wReRanker.re_rank "q" wChunks5).map ReRankedChunk.toRetrievedChunk)
      (wChunks5.take wReRanker.config.top_k_input) :=
  (re_rank_no_fabrication wReRanker "q" wChunks5 (by decide)).1

/-! ## C9 -/

lemma filter_orderedInsert_of_key_eq (key : ReRankedChunk → Score)
    {s : Score} {x : ReRankedChunk} (hx : key x = s) :
    ∀ l : List ReRankedChunk,
      (List.orderedInsert (fun a b => key b ≤ key a) x l).filter
          (fun c => decide (key c = s))
        = x :: l.filter (fun c => decide (key c = s))
  | [] => by simp [List.orderedInsert, hx]
  | b :: l => by
    by_cases hb : key b ≤ key x
    · rw [List.orderedInsert, if_pos hb]
      simp [List.filter_cons, hx]
    · have hbs : ¬(key b = s) := fun he => hb (le_of_eq (hx ▸ he))
      rw [List.orderedInsert, if_neg hb]
      simp [List.filter_cons, hbs, filter_orderedInsert_of_key_eq key hx l]

lemma filter_orderedInsert_of_key_ne (key : ReRankedChunk → Score)
    {s : Score} {x : ReRankedChunk} (hx : ¬(key x = s)) :
    ∀ l : List ReRankedChunk,
      (List.orderedInsert (fun a b => key b ≤ key a) x l).filter
          (fun c => decide (key c = s))
        = l.filter (fun c => decide (key c = s))
  | [] => by simp [List.orderedInsert, hx]
  | b :: l => by
    by_cases hb : key b ≤ key x
    · rw [List.orderedInsert, if_pos hb]
      simp [List.filter_cons, hx]
    · rw [List.orderedInsert, if_neg hb]
      simp [List.filter_cons, filter_orderedInsert_of_key_ne key hx l]

/-- Stability of the model of Python `sorted`: restricting the sorted
list to the chunks of any one key value reproduces their original
order. -/
lemma filter_pySortByKeyDesc (key : ReRankedChunk → Score) (s : Score) :
    ∀ l : List ReRankedChunk,
      (pySortByKeyDesc key l).filter (fun c => decide (key c = s))
        = l.filter (fun c => decide (key c = s))
  | [] => rfl
  | x :: l => by
    have h : pySortByKeyDesc key (x :: l)
        = List.orderedInsert (fun a b => key b ≤ key a) x
          (pySortByKeyDesc key l) := rfl
    rw [h]
    by_cases hx : key x = s
    · rw [filter_orderedInsert_of_key_eq key hx,
        filter_pySortByKeyDesc key s l]
      simp [List.filter_cons, hx]
    · rw [filter_orderedInsert_of_key_ne key hx,
        filter_pySortByKeyDesc key s l]
      simp [List.filter_cons, hx]

/-- C9: deterministic tie-break. First, the sort inside `re_rank` is
stable: for every final-score value `s`, the output chunks of final score
`s` form a prefix of the gated scorer output restricted to score `s`, so
ties keep the order the scorer (and hence the vector-ordered candidate
list, by the interface contract of C8) gave them. Second, `re_rank` is a
deterministic function of the configuration and of the scorer output on
the capped candidates. -/
theorem re_rank_stable_tie_break :
    (∀ (r : ReRanker) (q : String) (cs : List RetrievedChunk) (s : Score),
      List.IsPrefix
        ((r.re_rank q cs).filter
          (fun c => decide (final_score r.config c = s)))
        ((apply_gating r.config
            (r.scorer q (cs.take r.config.top_k_input))).filter
          (fun c => decide (final_score r.config c = s))))
    ∧ (∀ (r₁ r₂ : ReRanker) (q : String) (cs : List RetrievedChunk),
      r₁.config = r₂.config →
      r₁.scorer q (cs.take r₁.config.top_k_input)
          = r₂.scorer q (cs.take r₂.config.top_k_input) →
      r₁.re_rank q cs = r₂.re_rank q cs) := by
  constructor
  · intro r q cs s
    rw [re_rank_eq]
    split_ifs with h1 h2
    · simp only [List.filter_nil]
      exact List.nil_prefix
    · simp only [List.filter_nil]
      exact List.nil_prefix
    · have h3 := (List.take_prefix r.config.top_n_output
        (pySortByKeyDesc (final_score r.config)
          (apply_gating r.config
            (r.scorer q (cs.take r.config.top_k_input))))).filter
        (fun c => decide (final_score r.config c = s))
      rwa [filter_pySortByKeyDesc] at h3
  · intro r₁ r₂ q cs hcfg hsc
    obtain ⟨s₁, c₁⟩ := r₁
    obtain ⟨s₂, c₂⟩ := r₂
    simp only at hcfg
    subst hcfg
    simp only at hsc
    rw [re_rank_eq, re_rank_eq]
    simp only [hsc]

/-- C9 witness: two re-rankers sharing the configuration and agreeing on
the one scorer call `re_rank` makes produce the same output at a concrete
input, even though their scorers differ elsewhere. -/
theorem re_rank_stable_tie_break_witness :
    wReRanker.re_rank "q" wChunks5
      = (ReRanker.mk
          (fun q cs => if q = "other" then [] else wScorer q cs)
          wConfig).re_rank "q" wChunks5 :=
  re_rank_stable_tie_break.2 wReRanker
    ⟨fun q cs => if q = "other" then [] else wScorer q cs, wConfig⟩
    "q" wChunks5 rfl (by decide)

/-! ## C4 -/

/-- The sliding-window loop never makes its guard false once inside when
`0 < overlap`: the next window start `min(start + chunk_size, len) -
overlap` is again strictly below the text length, for any fuel. -/
lemma splitLoop_no_exit (sha1hex : String → String) (c : Chunker)
    (text : List Char) (meta : List (String × String))
    (hov : 0 < c.overlap) :
    ∀ (fuel : Nat) (start : Int) (acc : List Chunk),
      start < (text.length : Int) →
      splitLoop sha1hex c text meta fuel start acc = none := by
  intro fuel
  induction fuel with
  | zero => intro start acc _; rfl
  | succ n ih =>
    intro start acc h
    simp only [splitLoop]
    rw [if_pos h]
    apply ih
    have h1 : min (start + (c.chunk_size : Int)) (text.length : Int)
        ≤ (text.length : Int) := min_le_right _ _
    omega

/-- C4 refutation record: at chunk_size 2, overlap 1 (a configuration
with `overlap < chunk_size`) and the two-character text `ab`, the
split loop runs out of any amount of fuel — `start = end - overlap`
without a break at `end = text_length` keeps the window start strictly
below the text length forever whenever `overlap > 0`. -/
theorem chunker_split_diverges (fuel : Nat) :
    Chunker.split (fun _ => "") ⟨2, 1, "char_window"⟩ fuel "ab" [] = none := by
  unfold Chunker.split
  rw [if_neg (by decide)]
  exact splitLoop_no_exit (fun _ => "") ⟨2, 1, "char_window"⟩
    "ab".toList [] (by decide) fuel 0 [] (by decide)

/-! ## C6 -/

/-- C6: the fragment identifier is a pure function of the source id, the
start offset, and the first 100 characters of the stripped chunk text:
texts agreeing on their first 100 characters hash identically, and
splitting is a deterministic function of its inputs, so re-splitting the
same document with the same parameters reproduces the same sequence of
(id, text, offsets). -/
theorem chunk_id_pure_function :
    (∀ (sha1hex : String → String) (meta : List (String × String))
        (start : Int) (t₁ t₂ : String),
      t₁.toList.take 100 = t₂.toList.take 100 →
      build_chunk_id sha1hex t₁ start meta
        = build_chunk_id sha1hex t₂ start meta)
    ∧ ∀ (sha1hex : String → String) (c : Chunker) (fuel : Nat)
        (text : String) (meta : List (String × String)),
      Chunker.split sha1hex c fuel text meta
        = Chunker.split sha1hex c fuel text meta := by
  refine ⟨fun sha1hex meta start t₁ t₂ h => ?_, fun _ _ _ _ _ => rfl⟩
  unfold build_chunk_id
  rw [h]

/-- A 101-character text: one hundred copies of the letter a and one
trailing character. -/
def wLongText (last : Char) : String :=
  String.mk (List.replicate 100 'a' ++ [last])

set_option maxRecDepth 4000 in
/-- C6 witness: two texts differing only at position 101 receive the same
identifier under any hash, here the identity. -/
theorem chunk_id_pure_function_witness :
    build_chunk_id (fun s => s) (wLongText 'x') 0 [("source_id", "doc")]
      = build_chunk_id (fun s => s) (wLongText 'y') 0 [("source_id", "doc")] :=
  chunk_id_pure_function.1 (fun s => s) [("source_id", "doc")] 0
    (wLongText 'x') (wLongText 'y') (by decide)

/-! ## C7 -/

/-- C7: `upsert` fails with the validation error exactly when
`len(ids) != len(embeddings)`; on the error the collection is unchanged
and the error is returned to the caller directly (no retry, no partial
write); on matching lengths the entries are handed to the collection. -/
theorem upsert_validation (coll : List VectorStoreEntry)
    (ids : List String) (embeddings : List (List Score))
    (metadatas : List (List (String × String))) (documents : List String) :
    (ids.length ≠ embeddings.length →
      VectorStore.upsert coll ids embeddings metadatas documents
        = (Except.error "ids and embeddings length mismatch", coll))
    ∧ (ids.length = embeddings.length →
      VectorStore.upsert coll ids embeddings metadatas documents
        = (Except.ok (),
            collection_upsert coll
              (buildEntries ids embeddings metadatas documents))) := by
  unfold VectorStore.upsert
  constructor
  · intro h
    rw [if_pos h]
  · intro h
    rw [if_neg (fun hne => hne h)]

/-- C7 witness: one id and zero embeddings trigger the validation error
and leave a one-entry collection unchanged. -/
theorem upsert_validation_witness :
    VectorStore.upsert [⟨"e", [1], [], "doc"⟩] ["a"] [] [] []
      = (Except.error "ids and embeddings length mismatch",
          [⟨"e", [1], [], "doc"⟩]) :=
  (upsert_validation [⟨"e", [1], [], "doc"⟩] ["a"] [] [] []).1 (by decide)

/-! ## C5 -/

/-- C5 divergence record: `RAGPipeline.answer` reads the attribute
`reranker_config` off `self`, but `__init__` never assigns it; it invokes
the method `rerank` on the re-ranker, which the `ReRanker` class does not
define; it reads `initial_top_k` and `max_context_tokens` off the
configuration, which the `ReRankerConfig` dataclass does not declare; and
it returns two values where its caller in `chatbot.py` unpacks three
(answer, confidence, fragments). So `answer` can neither produce the
specified `(answer_text, confidence, context_fragments)` triple nor
short-circuit with the refusal message. -/
theorem answer_contract_broken :
    rag_pipeline_init_attrs.contains "reranker_config" = false
    ∧ answer_self_attr_reads.contains "reranker_config" = true
    ∧ reranker_class_methods.contains answer_reranker_method_call = false
    ∧ answer_config_attr_reads.filter
        (fun a => reranker_config_fields.contains a) = []
    ∧ chatbot_answer_unpack_arity = answer_return_arity + 1 := by
  decide

end PersonalChatbot
